import Mathlib

/-!
# GhostHand — verification of the gesture core

Shallow embedding of `src/gesture_engine.py` and `src/smoothing.py`.

Conventions of the embedding:
* Python floats are modelled as exact rationals (`ℚ`) in the gesture engine,
  and as real numbers (`ℝ`) in the smoothing filter (whose arithmetic
  involves `π` and square roots).
* `time.time()` is modelled by passing the wall-clock instant `now : ℚ`
  explicitly into `process`; all reads of the clock within one tick yield
  the same instant.
* The MediaPipe landmark list is a function `Fin 21 → Pt`.
* `deque(maxlen=N)` is a `List ℚ` whose append evicts the oldest element
  when the list is full.
* The comparison `click_ratio < CLICK_THRESHOLD` (which in the source
  divides a Euclidean distance, `math.sqrt`, by a floored scale reference)
  is decided in `ℚ` by comparing squares; the equivalence with the
  real-valued ratio of the source is proved in `click_ratio_spec` /
  claim C7 below.
-/

namespace GhostHand

/-- A landmark point in normalized image coordinates (`.x`, `.y`). -/
structure Pt where
  x : ℚ
  y : ℚ
deriving DecidableEq, Repr

/-- One hand observation: the 21 MediaPipe landmarks (`landmarks.landmark[i]`). -/
structure Landmarks where
  landmark : Fin 21 → Pt

/-- Handedness label reported by the tracker (`"Left"`/`"Right"`), `Option` for `None`. -/
inductive HandLabel
  | left
  | right
deriving DecidableEq, Repr

/-- `class GestureState` (gesture_engine.py lines 5-10). -/
inductive GestureState
  | SLEEP
  | IDLE
  | TRACKING
  | CLICK_PENDING
  | SCROLLING
deriving DecidableEq, Repr

/-- `class GestureAction` (gesture_engine.py lines 12-17). -/
inductive GestureAction
  | NONE
  | CLICK
  | WAKE
  | SLEEP
  | SCROLL
deriving DecidableEq, Repr

/-- Mutable state of `class GestureManager` (`__init__`, lines 23-45).
`hold_start_time = 0` and `last_toggle_time = 0` are the "unset" sentinels,
as in the source. -/
structure GestureManager where
  CLICK_THRESHOLD : ℚ
  hold_start_time : ℚ
  current_state : GestureState
  prev_state : GestureState
  was_thumb_closed : Bool
  wrist_history : List ℚ
  last_toggle_time : ℚ
deriving DecidableEq, Repr

/-- `WAVE_HISTORY_SIZE = 20` (line 28). -/
def WAVE_HISTORY_SIZE : ℕ := 20

/-- `WAVE_MOVEMENT_THRESHOLD = 0.4` (line 29; declared but the wave detector
uses the literal `0.15`, see `_detect_wave`). -/
def WAVE_MOVEMENT_THRESHOLD : ℚ := 4/10

/-- `WAVE_COOLDOWN = 2.0` (line 30). -/
def WAVE_COOLDOWN : ℚ := 2

/-- `HOLD_TIME_REQUIRED = 1.0` (line 33). -/
def HOLD_TIME_REQUIRED : ℚ := 1

/-- `HOLD_STABILITY_THRESH = 0.05` (line 34). -/
def HOLD_STABILITY_THRESH : ℚ := 5/100

/-- `GestureManager.__init__`: `CLICK_THRESHOLD = 0.14`, state `SLEEP`,
latch `False`, empty history, timers 0. -/
def GestureManager.init : GestureManager where
  CLICK_THRESHOLD := 14/100
  hold_start_time := 0
  current_state := GestureState.SLEEP
  prev_state := GestureState.SLEEP
  was_thumb_closed := false
  wrist_history := []
  last_toggle_time := 0

/-- `GestureManager.set_click_threshold` (lines 47-48). -/
def GestureManager.set_click_threshold (m : GestureManager) (val : ℚ) : GestureManager :=
  { m with CLICK_THRESHOLD := val }

/-- `DEFAULT_PROFILE["click_threshold"] = 0.20` (main.py line 58): the default
value of the configured click threshold, pushed into the `GestureManager`
via `set_click_threshold` at startup. -/
def default_click_threshold : ℚ := 20/100

/-- `deque(maxlen=n).append x`: appends on the right, evicting the oldest
element when the deque is full. -/
def dequeAppend (n : ℕ) (h : List ℚ) (x : ℚ) : List ℚ :=
  if h.length < n then h ++ [x] else h.tail ++ [x]

/-- Python `min` over a list (the callers guard against the empty case;
`0` is a junk value for `[]`). -/
def listMin : List ℚ → ℚ
  | [] => 0
  | x :: xs => xs.foldl min x

/-- Python `max` over a list (`0` is a junk value for `[]`). -/
def listMax : List ℚ → ℚ
  | [] => 0
  | x :: xs => xs.foldl max x

/-- `_is_palm_facing` (lines 50-84): sign of the 2D cross product of
wrist→index-MCP and wrist→pinky-MCP; `True` when handedness is unknown. -/
def is_palm_facing (lm : Landmarks) (handedness : Option HandLabel) : Bool :=
  match handedness with
  | none => true
  | some hd =>
    let p0 := lm.landmark 0
    let p5 := lm.landmark 5
    let p17 := lm.landmark 17
    let v1_x := p5.x - p0.x
    let v1_y := p5.y - p0.y
    let v2_x := p17.x - p0.x
    let v2_y := p17.y - p0.y
    let cp_z := v1_x * v2_y - v1_y * v2_x
    match hd with
    | HandLabel.right => decide (cp_z > 0)
    | HandLabel.left => decide (cp_z < 0)

/-- Finger count of `_detect_hold_to_wake` (lines 97-101): tips `8/12/16/20`
against the PIP joints `6/10/14/18` (`pips_ids[1..4]`). -/
def hold_fingers_open (lm : Landmarks) : ℕ :=
  (if (lm.landmark 8).y < (lm.landmark 6).y then 1 else 0) +
  (if (lm.landmark 12).y < (lm.landmark 10).y then 1 else 0) +
  (if (lm.landmark 16).y < (lm.landmark 14).y then 1 else 0) +
  (if (lm.landmark 20).y < (lm.landmark 18).y then 1 else 0)

/-- `_detect_hold_to_wake` (lines 86-130).  The source mutates
`self.hold_start_time`; here the pair `(result, hold_start_time')` is
returned.  `hist` is the wrist history at call time (the caller appended
before calling), `hold` the current `hold_start_time`, `now` the clock. -/
def detect_hold_to_wake (lm : Landmarks) (hist : List ℚ) (hold : ℚ) (now : ℚ) :
    Bool × ℚ :=
  if hold_fingers_open lm < 4 then (false, 0)
  else if hist.length < WAVE_HISTORY_SIZE then (false, hold)
  else
    let x_min := listMin hist
    let x_max := listMax hist
    let diff := x_max - x_min
    if diff < HOLD_STABILITY_THRESH then
      if hold = 0 then (false, now)
      else if now - hold > HOLD_TIME_REQUIRED then (true, 0)
      else (false, hold)
    else (false, 0)

/-- `_detect_wave` (lines 132-156): buffer full, edge rejection
(`x_min < 0.1 or x_max > 0.9`), then x-range above `0.15`. -/
def detect_wave (hist : List ℚ) : Bool :=
  if hist.length < WAVE_HISTORY_SIZE then false
  else
    let x_min := listMin hist
    let x_max := listMax hist
    if x_min < 1/10 ∨ x_max > 9/10 then false
    else
      let diff := x_max - x_min
      if diff > 15/100 then true else false

/-- `is_index_up` (line 183): index tip `8` above index MCP `5`. -/
def is_index_up (lm : Landmarks) : Bool :=
  decide ((lm.landmark 8).y < (lm.landmark 5).y)

/-- `is_middle_up` (line 184): middle tip `12` above middle MCP `9`. -/
def is_middle_up (lm : Landmarks) : Bool :=
  decide ((lm.landmark 12).y < (lm.landmark 9).y)

/-- `is_ring_up` (line 185): ring tip `16` above ring MCP `13`. -/
def is_ring_up (lm : Landmarks) : Bool :=
  decide ((lm.landmark 16).y < (lm.landmark 13).y)

/-- `is_pinky_up` (line 186): pinky tip `20` above pinky MCP `17`. -/
def is_pinky_up (lm : Landmarks) : Bool :=
  decide ((lm.landmark 20).y < (lm.landmark 17).y)

/-- `fingers_open` of `process` (lines 189-193): count of the four
MCP-based finger flags. -/
def fingers_open (lm : Landmarks) : ℕ :=
  (if is_index_up lm then 1 else 0) + (if is_middle_up lm then 1 else 0) +
  (if is_ring_up lm then 1 else 0) + (if is_pinky_up lm then 1 else 0)

/-- `is_tracking_pose` (line 245): index up, middle/ring/pinky down. -/
def is_tracking_pose (lm : Landmarks) : Bool :=
  is_index_up lm && !is_middle_up lm && !is_ring_up lm && !is_pinky_up lm

/-- `is_scroll_pose` (line 264): index and middle up, ring/pinky down. -/
def is_scroll_pose (lm : Landmarks) : Bool :=
  is_index_up lm && is_middle_up lm && !is_ring_up lm && !is_pinky_up lm

/-- Squared Euclidean distance between two landmark points. -/
def dist2 (a b : Pt) : ℚ := (a.x - b.x)^2 + (a.y - b.y)^2

/-- `is_thumb_closed` (lines 252-261), decided without square roots:
the source computes `click_ratio = raw_dist / scale_ref` with
`raw_dist = dist(thumb_tip, index_mcp)`, `scale_ref = max(dist(wrist,
index_mcp), 0.01)` and tests `click_ratio < T`.  For `T ≥ 0` this is
equivalent to comparing squares, `raw_dist² < T² · max(scale_dist²,
0.0001)`, which is the computable form used here; the equivalence with the
source's real-valued ratio is proved in claim C7. -/
def is_thumb_closed (T : ℚ) (lm : Landmarks) : Bool :=
  let raw2 := dist2 (lm.landmark 4) (lm.landmark 5)
  let scale2 := max (dist2 (lm.landmark 0) (lm.landmark 5)) (1/10000)
  decide (raw2 < T^2 * scale2)

/-- Section A of `process` (lines 200-210): hold-to-wake, only while asleep.
`Sum.inr` is the early `return` with `(state, action)`; `Sum.inl` continues
with the updated manager. -/
def GestureManager.stepHold (m : GestureManager) (lm : Landmarks)
    (hd : Option HandLabel) (now : ℚ) :
    GestureManager ⊕ (GestureManager × GestureState × GestureAction) :=
  if m.current_state = GestureState.SLEEP then
    let hist1 := dequeAppend WAVE_HISTORY_SIZE m.wrist_history (lm.landmark 0).x
    if is_palm_facing lm hd then
      let r := detect_hold_to_wake lm hist1 m.hold_start_time now
      if r.1 then
        Sum.inr ({ m with
                    wrist_history := [],
                    hold_start_time := r.2,
                    last_toggle_time := now,
                    current_state := GestureState.IDLE },
                 GestureState.IDLE, GestureAction.WAKE)
      else Sum.inl { m with wrist_history := hist1, hold_start_time := r.2 }
    else Sum.inl { m with wrist_history := hist1 }
  else Sum.inl m

/-- Section B of `process` (lines 212-230): wave detection in any state,
followed by the early `(SLEEP, NONE)` return while still asleep.
`Sum.inl` continues into normal operation (state ≠ SLEEP). -/
def GestureManager.stepWave (m : GestureManager) (lm : Landmarks)
    (hd : Option HandLabel) (now : ℚ) :
    GestureManager ⊕ (GestureManager × GestureState × GestureAction) :=
  let hist2 := dequeAppend WAVE_HISTORY_SIZE m.wrist_history (lm.landmark 0).x
  let m2 := { m with wrist_history := hist2 }
  if now - m2.last_toggle_time > WAVE_COOLDOWN
      && (3 ≤ fingers_open lm) && is_palm_facing lm hd && detect_wave hist2 then
    if m2.current_state = GestureState.SLEEP then
      Sum.inr ({ m2 with last_toggle_time := now, current_state := GestureState.IDLE },
               GestureState.IDLE, GestureAction.WAKE)
    else
      Sum.inr ({ m2 with last_toggle_time := now, current_state := GestureState.SLEEP },
               GestureState.SLEEP, GestureAction.SLEEP)
  else if m2.current_state = GestureState.SLEEP then
    Sum.inr (m2, m2.current_state, GestureAction.NONE)
  else Sum.inl m2

/-- Normal operation of `process` (lines 232-290): pose classification,
click edge, latch/state commit. -/
def GestureManager.normalOp (m : GestureManager) (lm : Landmarks) :
    GestureManager × GestureState × GestureAction :=
  let thumb_closed := is_thumb_closed m.CLICK_THRESHOLD lm
  let r : GestureState × GestureAction :=
    if is_tracking_pose lm then
      if m.was_thumb_closed && !thumb_closed then
        (GestureState.CLICK_PENDING, GestureAction.CLICK)
      else (GestureState.TRACKING, GestureAction.NONE)
    else if is_scroll_pose lm then (GestureState.SCROLLING, GestureAction.SCROLL)
    else (GestureState.IDLE, GestureAction.NONE)
  ({ m with
      was_thumb_closed := thumb_closed,
      prev_state := m.current_state,
      current_state := r.1 },
   r.1, r.2)

/-- `GestureManager.process` (lines 158-290).  Returns the updated manager
together with the `(state, action)` pair the source returns. -/
def GestureManager.process (m : GestureManager) (landmarks : Option Landmarks)
    (hd : Option HandLabel) (now : ℚ) :
    GestureManager × GestureState × GestureAction :=
  match landmarks with
  | none => ({ m with hold_start_time := 0 }, m.current_state, GestureAction.NONE)
  | some lm =>
    match m.stepHold lm hd now with
    | Sum.inr r => r
    | Sum.inl m1 =>
      match m1.stepWave lm hd now with
      | Sum.inr r => r
      | Sum.inl m2 => m2.normalOp lm

/-- One tick of input to the driving loop: the observation (or none), the
handedness label, and the wall-clock instant of the tick. -/
structure Tick where
  lm : Option Landmarks
  hd : Option HandLabel
  now : ℚ

/-- Run a sequence of ticks, returning the final manager state. -/
def GestureManager.run (m : GestureManager) : List Tick → GestureManager
  | [] => m
  | t :: ts => ((m.process t.lm t.hd t.now).1).run ts

/-- Run a sequence of ticks, collecting the returned `(state, action)` pairs. -/
def GestureManager.outputs (m : GestureManager) :
    List Tick → List (GestureState × GestureAction)
  | [] => []
  | t :: ts =>
    let r := m.process t.lm t.hd t.now
    r.2 :: (r.1).outputs ts

/-- Run a sequence of ticks, collecting the wall-clock times of the ticks
whose returned action is a toggle (`WAKE` or `SLEEP`). -/
def GestureManager.toggleTimes (m : GestureManager) : List Tick → List ℚ
  | [] => []
  | t :: ts =>
    let r := m.process t.lm t.hd t.now
    let rest := (r.1).toggleTimes ts
    if r.2.2 = GestureAction.WAKE ∨ r.2.2 = GestureAction.SLEEP then t.now :: rest
    else rest

/-- The hold-to-wake branch of `process` fires on this tick (state is
`SLEEP`, palm facing, and `_detect_hold_to_wake` returns `True` on the
freshly appended history). -/
def holdFires (m : GestureManager) (lm : Landmarks) (hd : Option HandLabel)
    (now : ℚ) : Bool :=
  decide (m.current_state = GestureState.SLEEP) && is_palm_facing lm hd &&
    (detect_hold_to_wake lm
      (dequeAppend WAVE_HISTORY_SIZE m.wrist_history (lm.landmark 0).x)
      m.hold_start_time now).1

/-! ## Concrete landmark sets used as test inputs -/

/-- Build a landmark list from an index-to-coordinates table. -/
def mkLm (f : ℕ → ℚ × ℚ) : Landmarks :=
  ⟨fun i => ⟨(f i.val).1, (f i.val).2⟩⟩

/-- An open hand at wrist x-position `wx`: all four finger tips above both
their PIP joints and their MCP knuckles; handedness is passed as `none`, so
the palm check falls back to `True`. -/
def openHand (wx : ℚ) : Landmarks :=
  mkLm fun i =>
    if i = 0 then (wx, 1)
    else if i = 8 ∨ i = 12 ∨ i = 16 ∨ i = 20 then (wx, 0)
    else if i = 6 ∨ i = 10 ∨ i = 14 ∨ i = 18 then (wx, 1/2)
    else if i = 5 ∨ i = 9 ∨ i = 13 ∨ i = 17 then (wx, 3/4)
    else (wx, 1)

/-- A hand whose four finger tips sit between the PIP joint and the MCP
knuckle: every tip is above its base knuckle (so the fingers count as
extended under the claimed tip-vs-MCP definition) but below its PIP
mid-joint (so `_detect_hold_to_wake` counts zero extended fingers). -/
def curledHand (wx : ℚ) : Landmarks :=
  mkLm fun i =>
    if i = 0 then (wx, 1)
    else if i = 8 ∨ i = 12 ∨ i = 16 ∨ i = 20 then (wx, 3/5)
    else if i = 6 ∨ i = 10 ∨ i = 14 ∨ i = 18 then (wx, 1/2)
    else if i = 5 ∨ i = 9 ∨ i = 13 ∨ i = 17 then (wx, 3/4)
    else (wx, 1)

/-! ## Smoothing filter (`src/smoothing.py`)

Float arithmetic is modelled as exact real arithmetic; the definitions are
`noncomputable` because the source computes with `math.pi` and real
division.  Concrete instances are evaluated by `norm_num`/`simp`. -/

/-- `class LowPassFilter` (smoothing.py lines 61-76): `last_val` starts as
`None`; `forced_alpha` models the attribute written by `set_alpha` (the
source never reads it back in `filter`). -/
structure LowPassFilter where
  last_val : Option ℝ
  forced_alpha : Option ℝ

/-- `LowPassFilter.__init__`. -/
def LowPassFilter.init : LowPassFilter := ⟨none, none⟩

/-- `LowPassFilter.set_alpha` (lines 65-66). -/
def LowPassFilter.set_alpha (f : LowPassFilter) (alpha : ℝ) : LowPassFilter :=
  { f with forced_alpha := some alpha }

/-- `LowPassFilter.filter(val, alpha=None)` (lines 68-76): on the first call
stores and returns `val`; afterwards blends with `alpha`, which defaults to
`1.0` when absent.  Returns `(result, updated filter)`. -/
noncomputable def LowPassFilter.filter (f : LowPassFilter) (val : ℝ)
    (alpha : Option ℝ) : ℝ × LowPassFilter :=
  match f.last_val with
  | none => (val, { f with last_val := some val })
  | some last =>
    let a := alpha.getD 1
    let new := a * val + (1 - a) * last
    (new, { f with last_val := some new })

/-- State of `class OneEuroFilter` (smoothing.py lines 4-15). -/
structure OneEuroFilter where
  freq : ℝ
  min_cutoff : ℝ
  beta : ℝ
  d_cutoff : ℝ
  x_filter : LowPassFilter
  y_filter : LowPassFilter
  dx_filter : LowPassFilter
  last_time : Option ℝ

/-- `OneEuroFilter.__init__(min_cutoff=1.0, beta=0.0, d_cutoff=1.0, freq=30.0)`;
the driving loop constructs `OneEuroFilter(min_cutoff=0.1, beta=0.5)`. -/
def OneEuroFilter.init (min_cutoff beta d_cutoff freq : ℝ) : OneEuroFilter where
  freq := freq
  min_cutoff := min_cutoff
  beta := beta
  d_cutoff := d_cutoff
  x_filter := LowPassFilter.init
  y_filter := LowPassFilter.init
  dx_filter := LowPassFilter.init
  last_time := none

/-- The blend factor of `OneEuroFilter.filter` (lines 56-57):
`tau = 1/(2π·cutoff)`, `alpha = 1/(1 + tau/dt)`. -/
noncomputable def smoothing_alpha (cutoff dt : ℝ) : ℝ :=
  let tau := 1 / (2 * Real.pi * cutoff)
  1 / (1 + tau / dt)

/-- `OneEuroFilter.filter(x, y, timestamp)` (lines 17-59); `timestamp` is an
explicit argument (the source defaults it to `time.time()`).  Returns
`((smoothed_x, smoothed_y), updated filter)`.
The raw reads of `self.x_filter.last_val` (the `dt ≤ 0` return and the
velocity estimate) are only reachable after the first call initialized both
axis filters, so `Option.getD _ 0` stands for the guaranteed-present value. -/
noncomputable def OneEuroFilter.filter (f : OneEuroFilter) (x y timestamp : ℝ) :
    (ℝ × ℝ) × OneEuroFilter :=
  match f.last_time with
  | none =>
    let f0 := { f with
                 last_time := some timestamp,
                 x_filter := f.x_filter.set_alpha 1,
                 y_filter := f.y_filter.set_alpha 1 }
    let rx := f0.x_filter.filter x none
    let ry := f0.y_filter.filter y none
    ((rx.1, ry.1), { f0 with x_filter := rx.2, y_filter := ry.2 })
  | some last =>
    let dt := timestamp - last
    let f1 := { f with last_time := some timestamp }
    if dt ≤ 0 then
      ((f1.x_filter.last_val.getD 0, f1.y_filter.last_val.getD 0), f1)
    else
      let target_dx := (x - f1.x_filter.last_val.getD 0) / dt
      let target_dy := (y - f1.y_filter.last_val.getD 0) / dt
      let re := f1.dx_filter.filter (|target_dx| + |target_dy|) none
      let cutoff := f1.min_cutoff + f1.beta * |re.1|
      let alpha := smoothing_alpha cutoff dt
      let rx := f1.x_filter.filter x (some alpha)
      let ry := f1.y_filter.filter y (some alpha)
      ((rx.1, ry.1), { f1 with dx_filter := re.2, x_filter := rx.2, y_filter := ry.2 })

/-- Feed the constant input `(x, y)` at each timestamp of the list,
collecting the smoothed outputs. -/
noncomputable def OneEuroFilter.constRun (f : OneEuroFilter) (x y : ℝ) :
    List ℝ → List (ℝ × ℝ)
  | [] => []
  | t :: ts =>
    let r := f.filter x y t
    r.1 :: (r.2).constRun x y ts

/-! ## Real-valued click geometry (source form, for claim C7) -/

/-- Euclidean distance between two landmark points (`math.sqrt` form used
at lines 252 and 256 of gesture_engine.py). -/
noncomputable def distR (a b : Pt) : ℝ :=
  Real.sqrt (((a.x : ℝ) - b.x)^2 + ((a.y : ℝ) - b.y)^2)

/-- `scale_ref` (lines 252-253): wrist-to-index-MCP distance, floored at
`0.01` to prevent division blow-up. -/
noncomputable def scale_ref (lm : Landmarks) : ℝ :=
  let s := distR (lm.landmark 0) (lm.landmark 5)
  if s < 1/100 then 1/100 else s

/-- `click_ratio` (lines 256-259): thumb-tip-to-index-MCP distance divided
by the floored scale reference. -/
noncomputable def click_ratio (lm : Landmarks) : ℝ :=
  distR (lm.landmark 4) (lm.landmark 5) / scale_ref lm

/-! ## Concrete input traces used by the counterexamples and witnesses -/

/-- A pointing hand (tracking pose): index tip above its knuckles, the
other three fingers down, thumb tip far from the index knuckle (open). -/
def pointHand (wx : ℚ) : Landmarks :=
  mkLm fun i =>
    if i = 0 then (wx, 1)
    else if i = 8 then (wx, 0)
    else if i = 6 ∨ i = 10 ∨ i = 14 ∨ i = 18 then (wx, 1/2)
    else if i = 5 ∨ i = 9 ∨ i = 13 ∨ i = 17 then (wx, 3/4)
    else (wx, 1)

/-- A toggle on this tick is wave-triggered when the hold-to-wake branch did
not fire (the hold branch returns before the wave branch runs). -/
def waveTriggered (m : GestureManager) (t : Tick) : Bool :=
  match t.lm with
  | none => false
  | some lm => !(holdFires m lm t.hd t.now)

/-- Run a sequence of ticks, collecting for every toggle tick its wall-clock
time and whether the toggle was wave-triggered. -/
def toggleEvents (m : GestureManager) : List Tick → List (ℚ × Bool)
  | [] => []
  | t :: ts =>
    let r := m.process t.lm t.hd t.now
    let rest := toggleEvents r.1 ts
    if r.2.2 = GestureAction.WAKE ∨ r.2.2 = GestureAction.SLEEP then
      (t.now, waveTriggered m t) :: rest
    else rest

/-- Input trace refuting claim C2: an open hand held still wakes the system
by hold at `t = 12.1`; a wave at `t = 14.2` puts it to sleep; holding still
again re-wakes it by hold at `t = 15.4`, only `1.2 s` after the sleep
toggle — the hold-to-wake path never consults the cooldown. -/
def c2Trace : List Tick :=
  ((List.range 22).map fun i => Tick.mk (some (openHand (1/2))) none (10 + i/10))
  ++ ((List.range 21).map fun i =>
        Tick.mk (some (openHand (if i = 2 then 7/10 else 1/2))) none (122/10 + i/10))
  ++ [Tick.mk (some (openHand (1/2))) none (1425/100)]
  ++ ((List.range 12).map fun i => Tick.mk (some (openHand (1/2))) none (143/10 + i/10))

/-- The times of a tick list are strictly increasing (a well-formed
wall-clock trace). -/
def ascending : List ℚ → Bool
  | [] => true
  | [_] => true
  | a :: b :: r => decide (a < b) && ascending (b :: r)

/-- Input trace refuting claim C5: from the initial (sleeping) manager, an
open hand waving between `x = 0.4` and `x = 0.6` triggers a wave wake on
the tenth tick; the wrist history is not cleared by that wake. -/
def c5Trace : List Tick :=
  (List.range 10).map fun i =>
    Tick.mk (some (openHand (if Nat.mod i 2 = 0 then 2/5 else 3/5))) none (10 + i/10)

/-- Input trace refuting claim C3: a hand whose finger tips are above every
base knuckle (MCP) but below every PIP mid-joint, held perfectly still.
Under the claimed tip-vs-base-knuckle reading all four fingers are
extended, the palm faces the camera, the buffer is full and stable for
well over a second — yet the code never wakes, because
`_detect_hold_to_wake` counts fingers against the PIP joints. -/
def c3Trace : List Tick :=
  (List.range 26).map fun i => Tick.mk (some (curledHand (1/2))) none (10 + i/10)

/-! ## Theorems: structural lemmas about `process` and the claims -/

theorem stepHold_inl {m : GestureManager} {lm : Landmarks} {hd : Option HandLabel} {now : ℚ}
    {m1 : GestureManager} (h : m.stepHold lm hd now = Sum.inl m1) :
    m1.CLICK_THRESHOLD = m.CLICK_THRESHOLD ∧
    m1.current_state = m.current_state ∧
    m1.prev_state = m.prev_state ∧
    m1.was_thumb_closed = m.was_thumb_closed ∧
    m1.last_toggle_time = m.last_toggle_time ∧
    holdFires m lm hd now = false := by
  simp only [GestureManager.stepHold] at h
  split_ifs at h with h1 h2 h3 <;> simp only [Sum.inl.injEq, reduceCtorEq] at h <;>
    first
    | (subst h; simp_all [holdFires])
    | exact h.elim

theorem stepHold_inr {m : GestureManager} {lm : Landmarks} {hd : Option HandLabel} {now : ℚ}
    {r : GestureManager × GestureState × GestureAction}
    (h : m.stepHold lm hd now = Sum.inr r) :
    r.2.1 = GestureState.IDLE ∧
    r.2.2 = GestureAction.WAKE ∧
    r.1.current_state = GestureState.IDLE ∧
    r.1.last_toggle_time = now ∧
    r.1.wrist_history = [] ∧
    r.1.CLICK_THRESHOLD = m.CLICK_THRESHOLD ∧
    r.1.was_thumb_closed = m.was_thumb_closed ∧
    m.current_state = GestureState.SLEEP ∧
    holdFires m lm hd now = true ∧
    r.1.hold_start_time
      = (detect_hold_to_wake lm
          (dequeAppend WAVE_HISTORY_SIZE m.wrist_history (lm.landmark 0).x)
          m.hold_start_time now).2 ∧
    is_palm_facing lm hd = true := by
  simp only [GestureManager.stepHold] at h
  split_ifs at h with h1 h2 h3 <;> simp only [Sum.inr.injEq, reduceCtorEq] at h <;>
    first
    | (subst h; simp_all [holdFires])
    | exact h.elim

theorem stepWave_inl {m : GestureManager} {lm : Landmarks} {hd : Option HandLabel} {now : ℚ}
    {m2 : GestureManager} (h : m.stepWave lm hd now = Sum.inl m2) :
    m2 = { m with wrist_history :=
            dequeAppend WAVE_HISTORY_SIZE m.wrist_history (lm.landmark 0).x } ∧
    m.current_state ≠ GestureState.SLEEP := by
  simp only [GestureManager.stepWave] at h
  split_ifs at h with h1 h2 <;> simp only [Sum.inl.injEq, reduceCtorEq] at h <;>
    first
    | (subst h; simp_all)
    | exact h.elim

theorem stepWave_inr {m : GestureManager} {lm : Landmarks} {hd : Option HandLabel} {now : ℚ}
    {r : GestureManager × GestureState × GestureAction}
    (h : m.stepWave lm hd now = Sum.inr r) :
    (r.2.1 = GestureState.IDLE ∧ r.2.2 = GestureAction.WAKE ∧
      m.current_state = GestureState.SLEEP ∧
      r.1.current_state = GestureState.IDLE ∧
      r.1.last_toggle_time = now ∧
      now - m.last_toggle_time > WAVE_COOLDOWN ∧
      r.1.wrist_history = dequeAppend WAVE_HISTORY_SIZE m.wrist_history (lm.landmark 0).x ∧
      r.1.CLICK_THRESHOLD = m.CLICK_THRESHOLD ∧
      r.1.was_thumb_closed = m.was_thumb_closed ∧
      3 ≤ fingers_open lm ∧ is_palm_facing lm hd = true ∧
      detect_wave (dequeAppend WAVE_HISTORY_SIZE m.wrist_history (lm.landmark 0).x) = true) ∨
    (r.2.1 = GestureState.SLEEP ∧ r.2.2 = GestureAction.SLEEP ∧
      m.current_state ≠ GestureState.SLEEP ∧
      r.1.current_state = GestureState.SLEEP ∧
      r.1.last_toggle_time = now ∧
      now - m.last_toggle_time > WAVE_COOLDOWN ∧
      r.1.CLICK_THRESHOLD = m.CLICK_THRESHOLD ∧
      r.1.was_thumb_closed = m.was_thumb_closed ∧
      3 ≤ fingers_open lm ∧ is_palm_facing lm hd = true) ∨
    (r.2.1 = GestureState.SLEEP ∧ r.2.2 = GestureAction.NONE ∧
      m.current_state = GestureState.SLEEP ∧
      r.1.current_state = GestureState.SLEEP ∧
      r.1.last_toggle_time = m.last_toggle_time ∧
      r.1.CLICK_THRESHOLD = m.CLICK_THRESHOLD ∧
      r.1.was_thumb_closed = m.was_thumb_closed) := by
  simp only [GestureManager.stepWave] at h
  split_ifs at h with h1 h2 <;> simp only [Sum.inr.injEq, reduceCtorEq] at h <;>
    first
    | (subst h; simp_all)
    | exact h.elim

theorem normalOp_spec (m : GestureManager) (lm : Landmarks) :
    ((m.normalOp lm).1.CLICK_THRESHOLD = m.CLICK_THRESHOLD) ∧
    ((m.normalOp lm).1.was_thumb_closed = is_thumb_closed m.CLICK_THRESHOLD lm) ∧
    ((m.normalOp lm).1.current_state = (m.normalOp lm).2.1) ∧
    ((m.normalOp lm).1.last_toggle_time = m.last_toggle_time) ∧
    ((m.normalOp lm).1.wrist_history = m.wrist_history) ∧
    ((m.normalOp lm).2.2 = GestureAction.CLICK ↔
      (is_tracking_pose lm = true ∧ m.was_thumb_closed = true ∧
        is_thumb_closed m.CLICK_THRESHOLD lm = false)) ∧
    ((m.normalOp lm).2.2 = GestureAction.CLICK → (m.normalOp lm).2.1 = GestureState.CLICK_PENDING) ∧
    ((m.normalOp lm).2.2 = GestureAction.SCROLL → (m.normalOp lm).2.1 = GestureState.SCROLLING) ∧
    ((m.normalOp lm).2.2 ≠ GestureAction.WAKE) ∧
    ((m.normalOp lm).2.2 ≠ GestureAction.SLEEP) := by
  simp only [GestureManager.normalOp]
  split_ifs with h1 h2 h3 <;> simp_all

theorem process_some (m : GestureManager) (lm : Landmarks) (hd : Option HandLabel) (now : ℚ) :
    (∃ r, m.stepHold lm hd now = Sum.inr r ∧ m.process (some lm) hd now = r) ∨
    (∃ m1 r, m.stepHold lm hd now = Sum.inl m1 ∧ m1.stepWave lm hd now = Sum.inr r ∧
      m.process (some lm) hd now = r) ∨
    (∃ m1 m2, m.stepHold lm hd now = Sum.inl m1 ∧ m1.stepWave lm hd now = Sum.inl m2 ∧
      m.process (some lm) hd now = m2.normalOp lm) := by
  rcases h1 : m.stepHold lm hd now with m1 | r
  · rcases h2 : m1.stepWave lm hd now with m2 | r
    · refine Or.inr (Or.inr ⟨m1, m2, rfl, h2, ?_⟩)
      simp [GestureManager.process, h1, h2]
    · refine Or.inr (Or.inl ⟨m1, r, rfl, h2, ?_⟩)
      simp [GestureManager.process, h1, h2]
  · refine Or.inl ⟨r, rfl, ?_⟩
    simp [GestureManager.process, h1]

/-- C6: a no-observation tick returns the unchanged current state with action
`NONE`, resets the hold timer to unset, and leaves every other field of the
state machine (wrist history, current state, cooldown, latch) untouched. -/
theorem C6_no_observation (m : GestureManager) (hd : Option HandLabel) (now : ℚ) :
    m.process none hd now
      = ({ m with hold_start_time := 0 }, m.current_state, GestureAction.NONE) := rfl

/-- C10: every `(state, action)` pair returned by `process` satisfies:
`WAKE` comes with state `IDLE`, `SLEEP` with state `SLEEP`, `CLICK` with
state `CLICK_PENDING`, `SCROLL` with state `SCROLLING`, and a tick whose
pre-call state is `SLEEP` never returns `CLICK`. -/
theorem C10_state_action_pairing (m : GestureManager) (l : Option Landmarks)
    (hd : Option HandLabel) (now : ℚ) :
    ((m.process l hd now).2.2 = GestureAction.WAKE →
      (m.process l hd now).2.1 = GestureState.IDLE) ∧
    ((m.process l hd now).2.2 = GestureAction.SLEEP →
      (m.process l hd now).2.1 = GestureState.SLEEP) ∧
    ((m.process l hd now).2.2 = GestureAction.CLICK →
      (m.process l hd now).2.1 = GestureState.CLICK_PENDING) ∧
    ((m.process l hd now).2.2 = GestureAction.SCROLL →
      (m.process l hd now).2.1 = GestureState.SCROLLING) ∧
    (m.current_state = GestureState.SLEEP →
      (m.process l hd now).2.2 ≠ GestureAction.CLICK) := by
  cases l with
  | none => simp [GestureManager.process]
  | some lm =>
    rcases process_some m lm hd now with ⟨r, h1, he⟩ | ⟨m1, r, h1, h2, he⟩ | ⟨m1, m2, h1, h2, he⟩
    · rw [he]
      have := stepHold_inr h1
      simp_all
    · rw [he]
      rcases stepWave_inr h2 with h3 | h3 | h3 <;> simp_all
    · rw [he]
      have hs := normalOp_spec m2 lm
      have hw := stepWave_inl h2
      have hh := stepHold_inl h1
      refine ⟨?_, ?_, ?_, ?_, ?_⟩
      · intro hc; exact absurd hc hs.2.2.2.2.2.2.2.2.1
      · intro hc; exact absurd hc hs.2.2.2.2.2.2.2.2.2
      · exact hs.2.2.2.2.2.2.1
      · exact hs.2.2.2.2.2.2.2.1
      · intro hsl
        have : m1.current_state = m.current_state := hh.2.1
        exact absurd (this.trans hsl) hw.2

/-- C4: the wave detector returns `True` exactly when the buffer is full,
the minimum buffered x is at least `0.1`, the maximum is at most `0.9`, and
the range exceeds `0.15`; in particular any buffer entering the edge bands
is rejected regardless of range. -/
theorem C4_wave_detector (h : List ℚ) :
    (detect_wave h = true ↔
      (WAVE_HISTORY_SIZE ≤ h.length ∧ 1/10 ≤ listMin h ∧ listMax h ≤ 9/10 ∧
        15/100 < listMax h - listMin h)) ∧
    (listMin h < 1/10 ∨ 9/10 < listMax h → detect_wave h = false) := by
  constructor
  · constructor
    · intro ht
      simp only [detect_wave] at ht
      split_ifs at ht with h1 h2 h3 <;>
        first
        | (push_neg at h2; exact ⟨Nat.le_of_not_lt h1, h2.1, h2.2, h3⟩)
        | exact absurd ht (by simp)
    · rintro ⟨hl, hmin, hmax, hr⟩
      simp only [detect_wave]
      rw [if_neg (Nat.not_lt.2 hl), if_neg (by push_neg; exact ⟨hmin, hmax⟩), if_pos hr]
  · intro hedge
    simp only [detect_wave]
    split_ifs with h1 h2 h3 <;>
      first
      | rfl
      | (exfalso; push_neg at h2
         rcases hedge with he | he
         · exact absurd h2.1 (not_le.2 he)
         · exact absurd h2.2 (not_le.2 he))

set_option maxRecDepth 40000 in
unseal Rat.add Rat.mul Rat.inv Rat.sub in
theorem C10_witness :
    (GestureManager.process
        { GestureManager.init with
            wrist_history := List.replicate 20 (1/2), hold_start_time := 1 }
        (some (openHand (1/2))) none 3).2.1 = GestureState.IDLE :=
  (C10_state_action_pairing _ _ _ _).1 (by decide)

set_option maxRecDepth 40000 in
unseal Rat.add Rat.mul Rat.inv Rat.sub in
theorem C4_witness :
    detect_wave (List.replicate 20 ((1:ℚ)/20)) = false ∧
    detect_wave ((1:ℚ)/2 :: List.replicate 19 ((7:ℚ)/10)) = true :=
  ⟨(C4_wave_detector _).2 (Or.inl (by decide)),
   (C4_wave_detector _).1.mpr (by refine ⟨by decide, by decide, by decide, by decide⟩)⟩

theorem lowpass_const {f : LowPassFilter} {v : ℝ} (hv : f.last_val = some v) (a : Option ℝ) :
    f.filter v a = (v, f) := by
  unfold LowPassFilter.filter
  rw [hv]
  have : a.getD 1 * v + (1 - a.getD 1) * v = v := by ring
  simp [this, ← hv]

/-- Helper: one `filter` step with the constant input already stored and a
strictly later timestamp passes the constant through and keeps the state. -/
theorem filter_const_step {f : OneEuroFilter} {x y t ts : ℝ}
    (hlt : f.last_time = some t) (hx : f.x_filter.last_val = some x)
    (hy : f.y_filter.last_val = some y) (hts : t < ts) :
    (f.filter x y ts).1 = (x, y) ∧
    (f.filter x y ts).2.x_filter.last_val = some x ∧
    (f.filter x y ts).2.y_filter.last_val = some y ∧
    (f.filter x y ts).2.last_time = some ts ∧
    (f.filter x y ts).2.min_cutoff = f.min_cutoff ∧
    (f.filter x y ts).2.beta = f.beta := by
  have hdt : ¬ (ts - t ≤ 0) := by linarith
  unfold OneEuroFilter.filter
  rw [hlt]
  simp only [hdt, if_false, if_neg hdt]
  have hx0 : (x - (Option.getD (some x) 0)) / (ts - t) = 0 := by simp
  have hy0 : (y - (Option.getD (some y) 0)) / (ts - t) = 0 := by simp
  simp only [hx, hy, hx0, hy0, abs_zero, add_zero]
  rw [lowpass_const hx, lowpass_const hy]
  simp
  exact ⟨hx, hy⟩

/-- Helper: alpha bound used by C9. -/
theorem smoothing_alpha_mem {c dt : ℝ} (hc : 0 < c) (hdt : 0 < dt) :
    0 < smoothing_alpha c dt ∧ smoothing_alpha c dt < 1 := by
  unfold smoothing_alpha
  have hpi : (0:ℝ) < 2 * Real.pi * c := by positivity
  have htau : (0:ℝ) < 1 / (2 * Real.pi * c) := by positivity
  have hq : (0:ℝ) < 1 / (2 * Real.pi * c) / dt := by positivity
  constructor
  · positivity
  · rw [div_lt_one (by linarith)]
    linarith

/-- Helper: a constant stream at increasing timestamps keeps outputting the
constant once it is stored in the axis filters. -/
theorem constRun_const (x y : ℝ) :
    ∀ (times : List ℝ) (f : OneEuroFilter) (t : ℝ),
      f.last_time = some t → f.x_filter.last_val = some x →
      f.y_filter.last_val = some y → List.Chain (· < ·) t times →
      ∀ p ∈ f.constRun x y times, p = (x, y) := by
  intro times
  induction times with
  | nil => intro f t _ _ _ _ p hp; simp [OneEuroFilter.constRun] at hp
  | cons t' ts ih =>
    intro f t hlt hx hy hch p hp
    rcases List.chain_cons.1 hch with ⟨htt', hch'⟩
    obtain ⟨h1, h2, h3, h4, _, _⟩ := filter_const_step hlt hx hy htt'
    simp only [OneEuroFilter.constRun, List.mem_cons] at hp
    rcases hp with hp | hp
    · rw [hp, h1]
    · exact ih _ t' h4 h2 h3 hch' p hp

/-- C8: a `filter` call whose timestamp is not later than the stored one
(`dt ≤ 0`) returns the previous smoothed values, leaves the axis (and
derivative) filter states untouched, and does not advance the stored last
timestamp: the stored value becomes the call's timestamp, which is not
later than the previous one. -/
theorem C8_nonpositive_dt (f : OneEuroFilter) (x y ts t px py : ℝ)
    (hlt : f.last_time = some t) (hx : f.x_filter.last_val = some px)
    (hy : f.y_filter.last_val = some py) (hts : ts ≤ t) :
    (f.filter x y ts).1 = (px, py) ∧
    (f.filter x y ts).2.x_filter = f.x_filter ∧
    (f.filter x y ts).2.y_filter = f.y_filter ∧
    (f.filter x y ts).2.dx_filter = f.dx_filter ∧
    (f.filter x y ts).2.last_time = some ts ∧
    (∀ u, (f.filter x y ts).2.last_time = some u → u ≤ t) := by
  have hdt : ts - t ≤ 0 := by linarith
  unfold OneEuroFilter.filter
  rw [hlt]
  refine ⟨?_, ?_, ?_, ?_, ?_, ?_⟩
  · simp [hts, hx, hy]
  · simp [hts]
  · simp [hts]
  · simp [hts]
  · simp [hts]
  · intro u hu
    simp [hts] at hu
    linarith [hu]

unseal Rat.add Rat.mul Rat.inv Rat.sub in
theorem C8_witness :
    ((OneEuroFilter.filter
        { freq := 30, min_cutoff := 1/10, beta := 1/2, d_cutoff := 1,
          x_filter := ⟨some 3, none⟩, y_filter := ⟨some 4, none⟩,
          dx_filter := ⟨none, none⟩, last_time := some 2 }
        9 9 1).1 = (3, 4)) ∧
    ((OneEuroFilter.filter
        { freq := 30, min_cutoff := 1/10, beta := 1/2, d_cutoff := 1,
          x_filter := ⟨some 3, none⟩, y_filter := ⟨some 4, none⟩,
          dx_filter := ⟨none, none⟩, last_time := some 2 }
        9 9 1).2.last_time = some 1) :=
  ⟨(C8_nonpositive_dt _ 9 9 1 2 3 4 rfl rfl rfl (by norm_num)).1,
   (C8_nonpositive_dt _ 9 9 1 2 3 4 rfl rfl rfl (by norm_num)).2.2.2.2.1⟩

/-- C9: the very first `filter` call passes the raw input through; for a
constant input on strictly increasing timestamps the smoothed output stays
at that constant (the blend factor `alpha` lies strictly between 0 and 1
whenever the cutoff and `dt` are positive, and the blend of a constant with
itself is that constant), so a fresh filter fed a constant stream outputs
the constant on every tick. -/
theorem C9_constant_stream :
    (∀ (f : OneEuroFilter) (x y ts : ℝ), f.last_time = none →
      (f.filter x y ts).1 = (x, y)) ∧
    (∀ c dt : ℝ, 0 < c → 0 < dt →
      0 < smoothing_alpha c dt ∧ smoothing_alpha c dt < 1) ∧
    (∀ (f : OneEuroFilter) (x y t ts : ℝ),
      f.last_time = some t → f.x_filter.last_val = some x →
      f.y_filter.last_val = some y → t < ts →
      (f.filter x y ts).1 = (x, y)) ∧
    (∀ (mc b dc fr x y t : ℝ) (times : List ℝ),
      List.Chain (· < ·) t times →
      (((OneEuroFilter.init mc b dc fr).filter x y t).1 = (x, y) ∧
       ∀ p ∈ (((OneEuroFilter.init mc b dc fr).filter x y t).2).constRun x y times,
         p = (x, y))) := by
  have hfirst : ∀ (f : OneEuroFilter) (x y ts : ℝ), f.last_time = none →
      (f.filter x y ts).1 = (x, y) ∧
      (f.filter x y ts).2.x_filter.last_val = some x ∧
      (f.filter x y ts).2.y_filter.last_val = some y ∧
      (f.filter x y ts).2.last_time = some ts := by
    intro f x y ts h
    unfold OneEuroFilter.filter
    rw [h]
    unfold LowPassFilter.filter LowPassFilter.set_alpha
    cases hx : f.x_filter.last_val <;> cases hy : f.y_filter.last_val <;>
      simp [hx, hy] <;> ring
  refine ⟨fun f x y ts h => (hfirst f x y ts h).1,
          fun c dt hc hdt => smoothing_alpha_mem hc hdt,
          fun f x y t ts h1 h2 h3 h4 => (filter_const_step h1 h2 h3 h4).1,
          ?_⟩
  intro mc b dc fr x y t times hch
  have h0 : (OneEuroFilter.init mc b dc fr).last_time = none := rfl
  obtain ⟨o1, o2, o3, o4⟩ := hfirst (OneEuroFilter.init mc b dc fr) x y t h0
  exact ⟨o1, constRun_const x y times _ t o4 o2 o3 hch⟩

theorem C9_witness :
    (((OneEuroFilter.init (1/10) (1/2) 1 30).filter 5 7 0).1 = (5, 7)) ∧
    (0 < smoothing_alpha 1 1 ∧ smoothing_alpha 1 1 < 1) :=
  ⟨(C9_constant_stream.1 _ 5 7 0 rfl),
   C9_constant_stream.2.1 1 1 (by norm_num) (by norm_num)⟩

theorem dist2_nonneg (a b : Pt) : 0 ≤ dist2 a b := by
  unfold dist2
  positivity

theorem distR_eq (a b : Pt) : distR a b = Real.sqrt ((dist2 a b : ℚ) : ℝ) := by
  unfold distR dist2
  push_cast
  ring_nf

theorem scale_ref_eq_max (lm : Landmarks) :
    scale_ref lm = max (distR (lm.landmark 0) (lm.landmark 5)) (1/100) := by
  unfold scale_ref
  rcases lt_or_le (distR (lm.landmark 0) (lm.landmark 5)) (1/100) with h | h
  · rw [if_pos h, max_eq_right (le_of_lt h)]
  · rw [if_neg (not_lt.2 h), max_eq_left h]

/-- C7: `click_ratio` is the thumb-tip-to-index-knuckle distance divided by
the floored scale reference `max(dist(wrist, index-knuckle), 0.01)`;
`is_thumb_closed` holds exactly when `click_ratio` is strictly below the
configured threshold; and the configuration default for that threshold is
`0.20`, installed by `set_click_threshold`. -/
theorem C7_click_ratio (lm : Landmarks) (T : ℚ) (hT : 0 ≤ T) :
    (is_thumb_closed T lm = true ↔ click_ratio lm < (T : ℝ)) ∧
    click_ratio lm
      = distR (lm.landmark 4) (lm.landmark 5)
        / max (distR (lm.landmark 0) (lm.landmark 5)) (1/100) ∧
    default_click_threshold = 20/100 ∧
    (∀ m : GestureManager,
      (m.set_click_threshold default_click_threshold).CLICK_THRESHOLD = 20/100) := by
  have hform : click_ratio lm
      = distR (lm.landmark 4) (lm.landmark 5)
        / max (distR (lm.landmark 0) (lm.landmark 5)) (1/100) := by
    unfold click_ratio
    rw [scale_ref_eq_max]
  refine ⟨?_, hform, rfl, fun m => rfl⟩
  set D : ℝ := ((dist2 (lm.landmark 0) (lm.landmark 5) : ℚ) : ℝ) with hD
  set R : ℝ := ((dist2 (lm.landmark 4) (lm.landmark 5) : ℚ) : ℝ) with hR
  have hD0 : 0 ≤ D := by rw [hD]; exact_mod_cast dist2_nonneg _ _
  have hR0 : 0 ≤ R := by rw [hR]; exact_mod_cast dist2_nonneg _ _
  have hM : max (distR (lm.landmark 0) (lm.landmark 5)) (1/100)
      = max (Real.sqrt D) (1/100) := by rw [distR_eq]
  have hMpos : (0:ℝ) < max (Real.sqrt D) (1/100) :=
    lt_of_lt_of_le (by norm_num) (le_max_right _ _)
  have hMsq : (max (Real.sqrt D) (1/100))^2 = max D (1/10000) := by
    rcases le_total (Real.sqrt D) (1/100) with h | h
    · rw [max_eq_right h, max_eq_right]
      · norm_num
      · have := Real.sqrt_le_sqrt (le_of_eq (rfl : D = D))
        nlinarith [Real.sq_sqrt hD0, Real.sqrt_nonneg D]
    · rw [max_eq_left h, Real.sq_sqrt hD0, max_eq_left]
      nlinarith [Real.sq_sqrt hD0, Real.sqrt_nonneg D]
  have hiff : click_ratio lm < (T : ℝ) ↔ R < (T:ℝ)^2 * max D (1/10000) := by
    rcases eq_or_lt_of_le hT with hT0 | hTpos
    · constructor
      · intro hcl
        exfalso
        have : 0 ≤ click_ratio lm := by
          rw [hform, hM]
          exact div_nonneg (by rw [distR_eq]; exact Real.sqrt_nonneg _) (le_of_lt hMpos)
        rw [← hT0] at hcl
        push_cast at hcl
        linarith
      · intro hcl
        exfalso
        rw [← hT0] at hcl
        push_cast at hcl
        have : (0:ℝ) ≤ 0 * max D (1/10000) := by simp
        nlinarith [le_max_left D (1/10000), le_max_right D (1/10000)]
    · have hTR : (0:ℝ) < (T:ℝ) := by exact_mod_cast hTpos
      rw [hform, hM, div_lt_iff hMpos, distR_eq, ← hR,
        Real.sqrt_lt' (by positivity), mul_pow, hMsq]
  rw [hiff]
  unfold is_thumb_closed
  rw [decide_eq_true_iff, hR, hD]
  constructor
  · intro hq
    have h2 : ((dist2 (lm.landmark 4) (lm.landmark 5) : ℚ) : ℝ)
        < ((T^2 * max (dist2 (lm.landmark 0) (lm.landmark 5)) (1/10000) : ℚ) : ℝ) :=
      (Rat.cast_lt (K := ℝ)).2 hq
    rw [Rat.cast_mul, Rat.cast_max, Rat.cast_pow] at h2
    convert h2 using 3
    norm_num
  · intro hr
    have h2 : ((dist2 (lm.landmark 4) (lm.landmark 5) : ℚ) : ℝ)
        < ((T^2 * max (dist2 (lm.landmark 0) (lm.landmark 5)) (1/10000) : ℚ) : ℝ) := by
      rw [Rat.cast_mul, Rat.cast_max, Rat.cast_pow]
      convert hr using 3
      norm_num
    exact_mod_cast h2

theorem fingers_open_tracking {lm : Landmarks} (h : is_tracking_pose lm = true) :
    fingers_open lm = 1 := by
  unfold is_tracking_pose at h
  simp only [Bool.and_eq_true, Bool.not_eq_true'] at h
  unfold fingers_open
  rw [h.1.1.1, h.1.1.2, h.1.2, h.2]
  rfl

theorem detect_wave_length {h : List ℚ} (hw : detect_wave h = true) :
    WAVE_HISTORY_SIZE ≤ h.length := by
  simp only [detect_wave] at hw
  split_ifs at hw with h1 h2 h3 <;>
    first
    | exact Nat.le_of_not_lt h1
    | exact absurd hw (by simp)

/-- Helper: `process` never changes the configured click threshold. -/
theorem process_threshold (m : GestureManager) (l : Option Landmarks)
    (hd : Option HandLabel) (now : ℚ) :
    (m.process l hd now).1.CLICK_THRESHOLD = m.CLICK_THRESHOLD := by
  cases l with
  | none => rfl
  | some lm =>
    rcases process_some m lm hd now with ⟨r, h1, he⟩ | ⟨m1, r, h1, h2, he⟩ | ⟨m1, m2, h1, h2, he⟩
    · rw [he]; exact (stepHold_inr h1).2.2.2.2.2.1
    · rw [he]
      have hh := (stepHold_inl h1).1
      rcases stepWave_inr h2 with h3 | h3 | h3 <;> simp_all
    · rw [he]
      have hh := (stepHold_inl h1).1
      have hw := (stepWave_inl h2).1
      have hn := (normalOp_spec m2 lm).1
      rw [hn, hw]
      exact hh

/-- Helper: a `CLICK` action implies the tick had landmarks, the tracking
pose, a set latch and an open thumb. -/
theorem process_click_forward {m : GestureManager} {l : Option Landmarks}
    {hd : Option HandLabel} {now : ℚ}
    (hc : (m.process l hd now).2.2 = GestureAction.CLICK) :
    ∃ lm, l = some lm ∧ is_tracking_pose lm = true ∧ m.was_thumb_closed = true ∧
      is_thumb_closed m.CLICK_THRESHOLD lm = false := by
  cases l with
  | none => exact absurd hc (by simp [GestureManager.process])
  | some lm =>
    refine ⟨lm, rfl, ?_⟩
    rcases process_some m lm hd now with ⟨r, h1, he⟩ | ⟨m1, r, h1, h2, he⟩ | ⟨m1, m2, h1, h2, he⟩
    · rw [he] at hc
      exact absurd hc (by simp [(stepHold_inr h1).2.1])
    · rw [he] at hc
      rcases stepWave_inr h2 with h3 | h3 | h3 <;> simp_all
    · rw [he] at hc
      have hn := (normalOp_spec m2 lm).2.2.2.2.2.1
      have hw := (stepWave_inl h2).1
      have hh := stepHold_inl h1
      rw [hn] at hc
      refine ⟨hc.1, ?_, ?_⟩
      · rw [← hh.2.2.2.1]
        rw [hw] at hc
        exact hc.2.1
      · rw [← hh.1]
        rw [hw] at hc
        exact hc.2.2

/-- Helper: the click-edge latch after a tick is either unchanged or set to
the freshly computed `is_thumb_closed` value. -/
theorem process_latch (m : GestureManager) (l : Option Landmarks)
    (hd : Option HandLabel) (now : ℚ) :
    (m.process l hd now).1.was_thumb_closed = m.was_thumb_closed ∨
    (∃ lm, l = some lm ∧
      (m.process l hd now).1.was_thumb_closed = is_thumb_closed m.CLICK_THRESHOLD lm) := by
  cases l with
  | none => exact Or.inl rfl
  | some lm =>
    rcases process_some m lm hd now with ⟨r, h1, he⟩ | ⟨m1, r, h1, h2, he⟩ | ⟨m1, m2, h1, h2, he⟩
    · rw [he]; exact Or.inl (stepHold_inr h1).2.2.2.2.2.2.1
    · rw [he]
      have hh := (stepHold_inl h1).2.2.2.1
      rcases stepWave_inr h2 with h3 | h3 | h3 <;> simp_all
    · rw [he]
      refine Or.inr ⟨lm, rfl, ?_⟩
      have hn := (normalOp_spec m2 lm).2.1
      have hw := (stepWave_inl h2).1
      have hh := stepHold_inl h1
      rw [hn, hw]
      simp only []
      rw [hh.1]

/-- Helper: no tick whose pre-call state is `SLEEP` emits `CLICK`. -/
theorem sleep_no_click {m : GestureManager} (l : Option Landmarks)
    (hd : Option HandLabel) (now : ℚ) (hs : m.current_state = GestureState.SLEEP) :
    (m.process l hd now).2.2 ≠ GestureAction.CLICK := by
  cases l with
  | none => simp [GestureManager.process]
  | some lm =>
    rcases process_some m lm hd now with ⟨r, h1, he⟩ | ⟨m1, r, h1, h2, he⟩ | ⟨m1, m2, h1, h2, he⟩
    · rw [he]; simp [(stepHold_inr h1).2.1]
    · rw [he]
      rcases stepWave_inr h2 with h3 | h3 | h3 <;> simp_all
    · rw [he]
      have hw := (stepWave_inl h2).2
      have hh := (stepHold_inl h1).2.1
      exact absurd (hh.trans hs) hw

/-- Helper: along a run in which `is_thumb_closed` evaluates to one constant
value on every landmark tick, a manager whose latch agrees with that
constant (when it is `false`) never emits `CLICK`. -/
theorem no_click_const (b : Bool) : ∀ (ts : List Tick) (m : GestureManager),
    (b = false → m.was_thumb_closed = false) →
    (∀ t ∈ ts, ∀ lm, t.lm = some lm → is_thumb_closed m.CLICK_THRESHOLD lm = b) →
    ∀ p ∈ m.outputs ts, p.2 ≠ GestureAction.CLICK := by
  intro ts
  induction ts with
  | nil => intro m _ _ p hp; simp [GestureManager.outputs] at hp
  | cons t ts ih =>
    intro m hlatch hconst p hp
    simp only [GestureManager.outputs, List.mem_cons] at hp
    rcases hp with hp | hp
    · rw [hp]
      intro hc
      obtain ⟨lm, hlm, _, hl, ht⟩ := process_click_forward hc
      cases b with
      | false =>
        rw [hlatch rfl] at hl
        exact Bool.noConfusion hl
      | true =>
        have hcv := hconst t (List.mem_cons_self _ _) lm hlm
        rw [ht] at hcv
        exact Bool.noConfusion hcv
    · refine ih (m.process t.lm t.hd t.now).1 ?_ ?_ p hp
      · intro hb
        rcases process_latch m t.lm t.hd t.now with h | ⟨lm, hlm, h⟩
        · rw [h]; exact hlatch hb
        · rw [h, hconst t (List.mem_cons_self _ _) lm hlm, hb]
      · intro t' ht' lm hlm
        rw [process_threshold]
        exact hconst t' (List.mem_cons_of_mem _ ht') lm hlm

/-- C1: while awake (state ≠ Sleep), `CLICK` is returned exactly on a
landmark tick showing the tracking pose with the latch `was_thumb_closed`
set from the previous landmark tick and `is_thumb_closed` now false; a tick
processed from the initial manager (fresh session, latch initialized false,
state Sleep) never returns `CLICK`; and along any run from the initial
manager in which `is_thumb_closed` evaluates to the same constant on every
landmark tick, no tick ever returns `CLICK`. -/
theorem C1_click_edge :
    (∀ (m : GestureManager) (lm : Landmarks) (hd : Option HandLabel) (now : ℚ),
      m.current_state ≠ GestureState.SLEEP →
      ((m.process (some lm) hd now).2.2 = GestureAction.CLICK ↔
        (is_tracking_pose lm = true ∧ m.was_thumb_closed = true ∧
          is_thumb_closed m.CLICK_THRESHOLD lm = false))) ∧
    (∀ (l : Option Landmarks) (hd : Option HandLabel) (now : ℚ),
      (GestureManager.init.process l hd now).2.2 ≠ GestureAction.CLICK) ∧
    (∀ (b : Bool) (ts : List Tick),
      (∀ t ∈ ts, ∀ lm, t.lm = some lm →
        is_thumb_closed GestureManager.init.CLICK_THRESHOLD lm = b) →
      ∀ p ∈ GestureManager.init.outputs ts, p.2 ≠ GestureAction.CLICK) := by
  refine ⟨?_, ?_, ?_⟩
  · intro m lm hd now hns
    constructor
    · intro hc
      obtain ⟨lm', hlm, htr, hl, ht⟩ := process_click_forward hc
      obtain rfl : lm' = lm := by injection hlm.symm
      exact ⟨htr, hl, ht⟩
    · rintro ⟨htr, hl, ht⟩
      rcases process_some m lm hd now with ⟨r, h1, he⟩ | ⟨m1, r, h1, h2, he⟩ | ⟨m1, m2, h1, h2, he⟩
      · exact absurd (stepHold_inr h1).2.2.2.2.2.2.2.1 hns
      · have hh := stepHold_inl h1
        rcases stepWave_inr h2 with h3 | h3 | h3
        · exact absurd (hh.2.1.symm.trans h3.2.2.1) hns
        · have := h3.2.2.2.2.2.2.2.2.1
          rw [fingers_open_tracking htr] at this
          omega
        · exact absurd (hh.2.1.symm.trans h3.2.2.1) hns
      · rw [he]
        have hh := stepHold_inl h1
        have hw := (stepWave_inl h2).1
        have hn := (normalOp_spec m2 lm).2.2.2.2.2.1
        rw [hn, hw]
        refine ⟨htr, ?_, ?_⟩
        · rw [hh.2.2.2.1]; exact hl
        · rw [hh.1]; exact ht
  · intro l hd now
    exact sleep_no_click l hd now rfl
  · intro b ts hconst
    exact no_click_const b ts GestureManager.init (fun _ => rfl) hconst

theorem toggle_sets_last {m : GestureManager} {l : Option Landmarks}
    {hd : Option HandLabel} {now : ℚ}
    (h : (m.process l hd now).2.2 = GestureAction.WAKE ∨
         (m.process l hd now).2.2 = GestureAction.SLEEP) :
    (m.process l hd now).1.last_toggle_time = now := by
  cases l with
  | none => simp [GestureManager.process] at h
  | some lm =>
    rcases process_some m lm hd now with ⟨r, h1, he⟩ | ⟨m1, r, h1, h2, he⟩ | ⟨m1, m2, h1, h2, he⟩
    · rw [he]; exact (stepHold_inr h1).2.2.2.1
    · rw [he]
      rw [he] at h
      have hh := stepHold_inl h1
      rcases stepWave_inr h2 with h3 | h3 | h3 <;> simp_all
    · rw [he] at h
      have hn9 := (normalOp_spec m2 lm).2.2.2.2.2.2.2.2.1
      have hn10 := (normalOp_spec m2 lm).2.2.2.2.2.2.2.2.2
      rcases h with h | h
      · exact absurd h hn9
      · exact absurd h hn10

theorem no_toggle_keeps_last {m : GestureManager} {l : Option Landmarks}
    {hd : Option HandLabel} {now : ℚ}
    (h : ¬((m.process l hd now).2.2 = GestureAction.WAKE ∨
           (m.process l hd now).2.2 = GestureAction.SLEEP)) :
    (m.process l hd now).1.last_toggle_time = m.last_toggle_time := by
  cases l with
  | none => rfl
  | some lm =>
    rcases process_some m lm hd now with ⟨r, h1, he⟩ | ⟨m1, r, h1, h2, he⟩ | ⟨m1, m2, h1, h2, he⟩
    · rw [he] at h
      exact absurd (Or.inl (stepHold_inr h1).2.1) h
    · rw [he]
      rw [he] at h
      have hh := stepHold_inl h1
      rcases stepWave_inr h2 with h3 | h3 | h3 <;> simp_all
    · rw [he]
      have hn := (normalOp_spec m2 lm).2.2.2.1
      have hw := (stepWave_inl h2).1
      have hh := (stepHold_inl h1).2.2.2.2.1
      rw [hn, hw]
      exact hh

theorem wave_toggle_cooldown {m : GestureManager} {lm : Landmarks}
    {hd : Option HandLabel} {now : ℚ}
    (htog : (m.process (some lm) hd now).2.2 = GestureAction.WAKE ∨
            (m.process (some lm) hd now).2.2 = GestureAction.SLEEP)
    (hnh : holdFires m lm hd now = false) :
    WAVE_COOLDOWN < now - m.last_toggle_time := by
  rcases process_some m lm hd now with ⟨r, h1, he⟩ | ⟨m1, r, h1, h2, he⟩ | ⟨m1, m2, h1, h2, he⟩
  · rw [(stepHold_inr h1).2.2.2.2.2.2.2.2.1] at hnh
    exact Bool.noConfusion hnh
  · have hh := stepHold_inl h1
    rcases stepWave_inr h2 with h3 | h3 | h3
    · rw [← hh.2.2.2.2.1]; exact h3.2.2.2.2.2.1
    · rw [← hh.2.2.2.2.1]; exact h3.2.2.2.2.2.1
    · rw [he] at htog
      rcases htog with h | h <;> simp_all
  · rw [he] at htog
    have hn9 := (normalOp_spec m2 lm).2.2.2.2.2.2.2.2.1
    have hn10 := (normalOp_spec m2 lm).2.2.2.2.2.2.2.2.2
    rcases htog with h | h
    · exact absurd h hn9
    · exact absurd h hn10

/-- Helper: along any run, consecutive toggle events satisfy the cooldown
whenever the later one is wave-triggered; the head event also satisfies it
relative to the incoming `last_toggle_time`. -/
theorem toggleEvents_chain : ∀ (ts : List Tick) (m : GestureManager),
    List.Chain' (fun a b : ℚ × Bool => b.2 = true → WAVE_COOLDOWN < b.1 - a.1)
      (toggleEvents m ts) ∧
    (∀ e ∈ (toggleEvents m ts).head?, e.2 = true →
      WAVE_COOLDOWN < e.1 - m.last_toggle_time) := by
  intro ts
  induction ts with
  | nil => intro m; simp [toggleEvents]
  | cons t ts ih =>
    intro m
    by_cases htog : ((m.process t.lm t.hd t.now).2.2 = GestureAction.WAKE ∨
                     (m.process t.lm t.hd t.now).2.2 = GestureAction.SLEEP)
    · have hev : toggleEvents m (t :: ts)
          = (t.now, waveTriggered m t) :: toggleEvents (m.process t.lm t.hd t.now).1 ts := by
        simp only [toggleEvents, if_pos htog]
      have hlast := toggle_sets_last htog
      obtain ⟨ihc, ihh⟩ := ih (m.process t.lm t.hd t.now).1
      rw [hev]
      constructor
      · rw [List.chain'_cons']
        refine ⟨?_, ihc⟩
        intro e he hwv
        have := ihh e he hwv
        rw [hlast] at this
        exact this
      · intro e he hwv
        simp only [List.head?_cons, Option.mem_def, Option.some.injEq] at he
        rw [← he] at hwv
        rw [← he]
        cases hl : t.lm with
        | none =>
          rw [hl] at htog
          simp [GestureManager.process] at htog
        | some lm =>
          have hwv' : waveTriggered m t = true := hwv
          rw [waveTriggered, hl] at hwv'
          simp only [Bool.not_eq_true'] at hwv'
          rw [hl] at htog
          exact wave_toggle_cooldown htog hwv'
    · have hev : toggleEvents m (t :: ts)
          = toggleEvents (m.process t.lm t.hd t.now).1 ts := by
        simp only [toggleEvents, if_neg htog]
      have hlast := no_toggle_keeps_last htog
      obtain ⟨ihc, ihh⟩ := ih (m.process t.lm t.hd t.now).1
      rw [hev]
      refine ⟨ihc, ?_⟩
      intro e he hwv
      have := ihh e he hwv
      rw [hlast] at this
      exact this

set_option maxRecDepth 200000 in
unseal Rat.add Rat.mul Rat.inv Rat.sub in
theorem C2_counterexample :
    GestureManager.init.toggleTimes c2Trace = [121/10, 142/10, 154/10] ∧
    ascending (c2Trace.map Tick.now) = true ∧
    (154/10 : ℚ) - 142/10 < WAVE_COOLDOWN := by
  refine ⟨by decide, by decide, by decide⟩

/-- C2 (amended): every toggle records its time in `last_toggle_time`; a
wave-triggered toggle (hold-to-wake did not fire) can only occur more than
the cooldown after the previous toggle; hence along any run, consecutive
toggle events where the later one is wave-triggered are more than the
cooldown apart.  Hold-to-wake toggles are exempt from the cooldown. -/
theorem C2_wave_cooldown :
    (∀ (m : GestureManager) (l : Option Landmarks) (hd : Option HandLabel) (now : ℚ),
      ((m.process l hd now).2.2 = GestureAction.WAKE ∨
       (m.process l hd now).2.2 = GestureAction.SLEEP) →
      (m.process l hd now).1.last_toggle_time = now) ∧
    (∀ (m : GestureManager) (lm : Landmarks) (hd : Option HandLabel) (now : ℚ),
      ((m.process (some lm) hd now).2.2 = GestureAction.WAKE ∨
       (m.process (some lm) hd now).2.2 = GestureAction.SLEEP) →
      holdFires m lm hd now = false →
      WAVE_COOLDOWN < now - m.last_toggle_time) ∧
    (∀ (m : GestureManager) (ts : List Tick),
      List.Chain' (fun a b : ℚ × Bool => b.2 = true → WAVE_COOLDOWN < b.1 - a.1)
        (toggleEvents m ts)) :=
  ⟨fun _ _ _ _ h => toggle_sets_last h,
   fun _ _ _ _ h hn => wave_toggle_cooldown h hn,
   fun m ts => (toggleEvents_chain ts m).1⟩

set_option maxRecDepth 40000 in
unseal Rat.add Rat.mul Rat.inv Rat.sub in
theorem C2_witness :
    WAVE_COOLDOWN
      < 10 - (GestureManager.init.set_click_threshold (1/5)).last_toggle_time :=
  C2_wave_cooldown.2.1
    { GestureManager.init.set_click_threshold (1/5) with
        current_state := GestureState.IDLE,
        wrist_history := (1/2) :: (7/10) :: List.replicate 18 (1/2) }
    (openHand (1/2)) none 10 (Or.inr (by decide)) (by decide)

set_option maxRecDepth 100000 in
unseal Rat.add Rat.mul Rat.inv Rat.sub in
theorem C5_counterexample :
    (GestureManager.init.outputs c5Trace).getLast?
        = some (GestureState.IDLE, GestureAction.WAKE) ∧
    (GestureManager.init.run c5Trace).wrist_history ≠ [] := by
  refine ⟨by decide, by decide⟩

/-- C5 (amended): a hold-triggered wake clears the wrist history; a
wave-triggered wake does not — the buffer that just witnessed the wave is
kept (in particular it is nonempty after the call). -/
theorem C5_history_on_wake (m : GestureManager) (lm : Landmarks)
    (hd : Option HandLabel) (now : ℚ)
    (hw : (m.process (some lm) hd now).2.2 = GestureAction.WAKE) :
    (holdFires m lm hd now = true → (m.process (some lm) hd now).1.wrist_history = []) ∧
    (holdFires m lm hd now = false → (m.process (some lm) hd now).1.wrist_history ≠ []) := by
  rcases process_some m lm hd now with ⟨r, h1, he⟩ | ⟨m1, r, h1, h2, he⟩ | ⟨m1, m2, h1, h2, he⟩
  · have hh := stepHold_inr h1
    rw [he]
    exact ⟨fun _ => hh.2.2.2.2.1, fun hf => absurd hh.2.2.2.2.2.2.2.2.1 (by rw [hf]; simp)⟩
  · have hh := stepHold_inl h1
    rw [he]
    rcases stepWave_inr h2 with h3 | h3 | h3
    · refine ⟨fun hf => absurd hh.2.2.2.2.2 (by rw [hf]; simp), fun _ => ?_⟩
      rw [h3.2.2.2.2.2.2.1]
      have hlen := detect_wave_length h3.2.2.2.2.2.2.2.2.2.2.2
      intro hnil
      rw [hnil] at hlen
      simp [WAVE_HISTORY_SIZE] at hlen
    · rw [he] at hw
      rw [h3.2.1] at hw
      exact absurd hw (by simp)
    · rw [he] at hw
      rw [h3.2.1] at hw
      exact absurd hw (by simp)
  · rw [he] at hw
    exact absurd hw (normalOp_spec m2 lm).2.2.2.2.2.2.2.2.1

set_option maxRecDepth 40000 in
unseal Rat.add Rat.mul Rat.inv Rat.sub in
theorem C5_witness :
    (GestureManager.process
        { GestureManager.init with
            wrist_history := List.replicate 20 (3/5), hold_start_time := 2 }
        (some (openHand (3/5))) none 4).1.wrist_history = [] :=
  (C5_history_on_wake _ _ none 4 (by decide)).1 (by decide)

set_option maxRecDepth 40000 in
unseal Rat.add Rat.mul Rat.inv Rat.sub in
theorem C1_witness :
    (GestureManager.process
        { GestureManager.init with
            current_state := GestureState.IDLE, was_thumb_closed := true }
        (some (pointHand (1/2))) none 5).2.2 = GestureAction.CLICK :=
  (C1_click_edge.1 _ _ none 5 (by decide)).mpr ⟨by decide, rfl, by decide⟩

theorem detect_hold_fire_iff (lm : Landmarks) (hist : List ℚ) (hold now : ℚ) :
    (detect_hold_to_wake lm hist hold now).1 = true ↔
      (4 ≤ hold_fingers_open lm ∧ WAVE_HISTORY_SIZE ≤ hist.length ∧
       listMax hist - listMin hist < HOLD_STABILITY_THRESH ∧ hold ≠ 0 ∧
       HOLD_TIME_REQUIRED < now - hold) := by
  constructor
  · intro hf
    simp only [detect_hold_to_wake] at hf
    split_ifs at hf with h1 h2 h3 h4 h5 <;>
      first
      | exact ⟨Nat.le_of_not_lt h1, Nat.le_of_not_lt h2, h3, h4, h5⟩
      | exact absurd hf (by simp)
  · rintro ⟨hf1, hf2, hf3, hf4, hf5⟩
    simp only [detect_hold_to_wake]
    rw [if_neg (Nat.not_lt.2 hf1), if_neg (Nat.not_lt.2 hf2), if_pos hf3, if_neg hf4,
      if_pos hf5]

theorem detect_hold_start (lm : Landmarks) (hist : List ℚ) (hold now : ℚ)
    (h1 : 4 ≤ hold_fingers_open lm) (h2 : WAVE_HISTORY_SIZE ≤ hist.length)
    (h3 : listMax hist - listMin hist < HOLD_STABILITY_THRESH) (h4 : hold = 0) :
    detect_hold_to_wake lm hist hold now = (false, now) := by
  simp only [detect_hold_to_wake]
  rw [if_neg (Nat.not_lt.2 h1), if_neg (Nat.not_lt.2 h2), if_pos h3, if_pos h4]

theorem detect_hold_reset_fingers (lm : Landmarks) (hist : List ℚ) (hold now : ℚ)
    (h1 : hold_fingers_open lm < 4) :
    detect_hold_to_wake lm hist hold now = (false, 0) := by
  simp only [detect_hold_to_wake]
  rw [if_pos h1]

theorem detect_hold_reset_unstable (lm : Landmarks) (hist : List ℚ) (hold now : ℚ)
    (h1 : 4 ≤ hold_fingers_open lm) (h2 : WAVE_HISTORY_SIZE ≤ hist.length)
    (h3 : ¬(listMax hist - listMin hist < HOLD_STABILITY_THRESH)) :
    detect_hold_to_wake lm hist hold now = (false, 0) := by
  simp only [detect_hold_to_wake]
  rw [if_neg (Nat.not_lt.2 h1), if_neg (Nat.not_lt.2 h2), if_neg h3]

theorem detect_hold_fire_resets (lm : Landmarks) (hist : List ℚ) (hold now : ℚ)
    (hf : (detect_hold_to_wake lm hist hold now).1 = true) :
    (detect_hold_to_wake lm hist hold now).2 = 0 := by
  simp only [detect_hold_to_wake] at hf ⊢
  split_ifs at hf ⊢ <;> simp_all

/-- Helper: when the hold branch fires, `stepHold` returns the wake result. -/
theorem stepHold_of_holdFires {m : GestureManager} {lm : Landmarks}
    {hd : Option HandLabel} {now : ℚ} (hf : holdFires m lm hd now = true) :
    m.stepHold lm hd now = Sum.inr
      ({ m with wrist_history := [],
                hold_start_time :=
                  (detect_hold_to_wake lm
                    (dequeAppend WAVE_HISTORY_SIZE m.wrist_history (lm.landmark 0).x)
                    m.hold_start_time now).2,
                last_toggle_time := now,
                current_state := GestureState.IDLE },
       GestureState.IDLE, GestureAction.WAKE) := by
  unfold holdFires at hf
  simp only [Bool.and_eq_true, decide_eq_true_eq] at hf
  unfold GestureManager.stepHold
  rw [if_pos hf.1.1, if_pos hf.1.2, if_pos hf.2]

/-- Helper: hold-timer value left by a non-firing `stepHold` while asleep. -/
theorem stepHold_inl_hold {m : GestureManager} {lm : Landmarks} {hd : Option HandLabel}
    {now : ℚ} {m1 : GestureManager} (h : m.stepHold lm hd now = Sum.inl m1)
    (hs : m.current_state = GestureState.SLEEP) :
    m1.hold_start_time
      = (if is_palm_facing lm hd = true then
          (detect_hold_to_wake lm
            (dequeAppend WAVE_HISTORY_SIZE m.wrist_history (lm.landmark 0).x)
            m.hold_start_time now).2
         else m.hold_start_time) := by
  simp only [GestureManager.stepHold] at h
  split_ifs at h with h1 h2 h3 <;> simp only [Sum.inl.injEq, reduceCtorEq] at h <;>
    first
    | (subst h; simp_all)
    | exact h.elim

/-- Helper: the wave branch never writes the hold timer. -/
theorem stepWave_inr_hold {m : GestureManager} {lm : Landmarks} {hd : Option HandLabel}
    {now : ℚ} {r : GestureManager × GestureState × GestureAction}
    (h : m.stepWave lm hd now = Sum.inr r) :
    r.1.hold_start_time = m.hold_start_time := by
  simp only [GestureManager.stepWave] at h
  split_ifs at h with h1 h2 <;> simp only [Sum.inr.injEq, reduceCtorEq] at h <;>
    first
    | (subst h; simp_all)
    | exact h.elim

/-- Helper: while asleep, the hold timer after a landmark tick is whatever
`_detect_hold_to_wake` left (on a palm-facing tick) and is untouched on a
non-palm tick — the wave branch never writes it. -/
theorem process_hold_sleep {m : GestureManager} {lm : Landmarks}
    {hd : Option HandLabel} {now : ℚ} (hs : m.current_state = GestureState.SLEEP) :
    (m.process (some lm) hd now).1.hold_start_time
      = (if is_palm_facing lm hd = true then
          (detect_hold_to_wake lm
            (dequeAppend WAVE_HISTORY_SIZE m.wrist_history (lm.landmark 0).x)
            m.hold_start_time now).2
         else m.hold_start_time) := by
  rcases process_some m lm hd now with ⟨r, h1, he⟩ | ⟨m1, r, h1, h2, he⟩ | ⟨m1, m2, h1, h2, he⟩
  · have hh := stepHold_inr h1
    rw [he, hh.2.2.2.2.2.2.2.2.2.1, if_pos hh.2.2.2.2.2.2.2.2.2.2]
  · have hh1 := stepHold_inl_hold h1 hs
    have hh2 := stepWave_inr_hold h2
    rw [he, hh2, hh1]
  · have hw := (stepWave_inl h2).2
    have hh := (stepHold_inl h1).2.1
    exact absurd (hh.trans hs) hw

set_option maxRecDepth 400000 in
unseal Rat.add Rat.mul Rat.inv Rat.sub in
theorem C3_counterexample :
    GestureManager.init.outputs c3Trace
        = List.replicate 26 (GestureState.SLEEP, GestureAction.NONE) ∧
    fingers_open (curledHand (1/2)) = 4 ∧
    is_index_up (curledHand (1/2)) = true ∧
    is_middle_up (curledHand (1/2)) = true ∧
    is_ring_up (curledHand (1/2)) = true ∧
    is_pinky_up (curledHand (1/2)) = true ∧
    is_palm_facing (curledHand (1/2)) none = true ∧
    ascending (c3Trace.map Tick.now) = true ∧
    ((List.range 27).all fun k =>
      !(decide (10 ≤ k)) ||
        decide ((GestureManager.init.run (c3Trace.take k)).wrist_history
          = List.replicate 20 (1/2))) = true ∧
    HOLD_TIME_REQUIRED < (125/10 : ℚ) - 109/10 := by
  refine ⟨by decide, by decide, by decide, by decide, by decide, by decide, by decide,
    by decide, by decide, by decide⟩

/-- C3 (amended): while the state is Sleep and landmarks are present, the
hold-to-wake transition fires iff the palm faces the camera, at least 4 of
the 4 tracked fingers are extended per the tip-above-PIP-mid-joint test
(landmarks 6/10/14/18 — not the base knuckles of §4.1), the wrist-history
buffer is full, the buffered x-range is below 0.05, and the hold countdown
was started (is set) strictly more than 1.0 s before this tick.  On firing
the tick returns `(Idle, Wake)` and unsets the countdown.  The countdown
starts on the first palm-facing stable full-buffer tick with 4 PIP-extended
fingers (set to the current time, without firing); a palm-facing tick with
fewer than 4 PIP-extended fingers, or with a full buffer whose range is not
below 0.05, resets it to unset; a tick without a facing palm leaves it
unchanged (the wave branch never writes it). -/
theorem C3_hold_to_wake (m : GestureManager) (lm : Landmarks)
    (hd : Option HandLabel) (now : ℚ)
    (hs : m.current_state = GestureState.SLEEP) :
    (holdFires m lm hd now = true ↔
      (is_palm_facing lm hd = true ∧ 4 ≤ hold_fingers_open lm ∧
       WAVE_HISTORY_SIZE ≤
         (dequeAppend WAVE_HISTORY_SIZE m.wrist_history (lm.landmark 0).x).length ∧
       listMax (dequeAppend WAVE_HISTORY_SIZE m.wrist_history (lm.landmark 0).x)
         - listMin (dequeAppend WAVE_HISTORY_SIZE m.wrist_history (lm.landmark 0).x)
           < HOLD_STABILITY_THRESH ∧
       m.hold_start_time ≠ 0 ∧
       HOLD_TIME_REQUIRED < now - m.hold_start_time)) ∧
    (holdFires m lm hd now = true →
      (m.process (some lm) hd now).2.2 = GestureAction.WAKE ∧
      (m.process (some lm) hd now).2.1 = GestureState.IDLE ∧
      (m.process (some lm) hd now).1.hold_start_time = 0) ∧
    (is_palm_facing lm hd = true → 4 ≤ hold_fingers_open lm →
      WAVE_HISTORY_SIZE ≤
        (dequeAppend WAVE_HISTORY_SIZE m.wrist_history (lm.landmark 0).x).length →
      listMax (dequeAppend WAVE_HISTORY_SIZE m.wrist_history (lm.landmark 0).x)
        - listMin (dequeAppend WAVE_HISTORY_SIZE m.wrist_history (lm.landmark 0).x)
          < HOLD_STABILITY_THRESH →
      m.hold_start_time = 0 →
      holdFires m lm hd now = false ∧
      (m.process (some lm) hd now).1.hold_start_time = now) ∧
    (is_palm_facing lm hd = true → hold_fingers_open lm < 4 →
      (m.process (some lm) hd now).1.hold_start_time = 0) ∧
    (is_palm_facing lm hd = true → 4 ≤ hold_fingers_open lm →
      WAVE_HISTORY_SIZE ≤
        (dequeAppend WAVE_HISTORY_SIZE m.wrist_history (lm.landmark 0).x).length →
      ¬(listMax (dequeAppend WAVE_HISTORY_SIZE m.wrist_history (lm.landmark 0).x)
          - listMin (dequeAppend WAVE_HISTORY_SIZE m.wrist_history (lm.landmark 0).x)
            < HOLD_STABILITY_THRESH) →
      (m.process (some lm) hd now).1.hold_start_time = 0) ∧
    (¬(is_palm_facing lm hd = true) →
      (m.process (some lm) hd now).1.hold_start_time = m.hold_start_time) := by
  refine ⟨?_, ?_, ?_, ?_, ?_, ?_⟩
  · unfold holdFires
    rw [hs]
    simp only [decide_True, Bool.true_and, Bool.and_eq_true]
    rw [detect_hold_fire_iff]
  · intro hf
    have hstep := stepHold_of_holdFires hf
    have hfire : (detect_hold_to_wake lm
        (dequeAppend WAVE_HISTORY_SIZE m.wrist_history (lm.landmark 0).x)
        m.hold_start_time now).1 = true := by
      unfold holdFires at hf
      simp only [Bool.and_eq_true, decide_eq_true_eq] at hf
      exact hf.2
    have heq : m.process (some lm) hd now
        = ({ m with wrist_history := [],
                    hold_start_time :=
                      (detect_hold_to_wake lm
                        (dequeAppend WAVE_HISTORY_SIZE m.wrist_history (lm.landmark 0).x)
                        m.hold_start_time now).2,
                    last_toggle_time := now,
                    current_state := GestureState.IDLE },
           GestureState.IDLE, GestureAction.WAKE) := by
      simp [GestureManager.process, hstep]
    rw [heq]
    exact ⟨rfl, rfl, detect_hold_fire_resets _ _ _ _ hfire⟩
  · intro hp h1 h2 h3 h4
    have hdet := detect_hold_start lm _ m.hold_start_time now h1 h2 h3 h4
    have hnf : holdFires m lm hd now = false := by
      unfold holdFires
      rw [hdet]
      simp
    refine ⟨hnf, ?_⟩
    rw [process_hold_sleep hs, if_pos hp, hdet]
  · intro hp h1
    have hdet := detect_hold_reset_fingers lm
      (dequeAppend WAVE_HISTORY_SIZE m.wrist_history (lm.landmark 0).x)
      m.hold_start_time now h1
    rw [process_hold_sleep hs, if_pos hp, hdet]
  · intro hp h1 h2 h3
    have hdet := detect_hold_reset_unstable lm
      (dequeAppend WAVE_HISTORY_SIZE m.wrist_history (lm.landmark 0).x)
      m.hold_start_time now h1 h2 h3
    rw [process_hold_sleep hs, if_pos hp, hdet]
  · intro hp
    rw [process_hold_sleep hs, if_neg hp]

set_option maxRecDepth 40000 in
unseal Rat.add Rat.mul Rat.inv Rat.sub in
theorem C3_witness :
    (GestureManager.process
        { GestureManager.init with
            wrist_history := List.replicate 20 (2/5), hold_start_time := 3 }
        (some (openHand (2/5))) none 5).2.2 = GestureAction.WAKE :=
  ((C3_hold_to_wake _ (openHand (2/5)) none 5 rfl).2.1 (by decide)).1

theorem C7_witness :
    (0:ℚ) ≤ 1/5 ∧
    (is_thumb_closed (1/5) (openHand 0) = true ↔
      click_ratio (openHand 0) < ((1/5 : ℚ) : ℝ)) :=
  ⟨by norm_num, (C7_click_ratio (openHand 0) (1/5) (by norm_num)).1⟩

end GhostHand
